import Mathlib

set_option autoImplicit false

/-!
Shallow embedding of the replicator controller in src/index.js.

JS objects used as string-keyed maps are modelled as association lists
kept in insertion order: property read, property assignment, property
deletion and for-in iteration become alGet, alSet, alDel and plain list
traversal. The global dbData record is modelled by DbData; the slices
of dbData belonging to one controlled database (what dataFor returns)
are modelled by St. Promise chains become explicit state passing with
an Option Nat error component (the HTTP-style status of a rejection).
Interleaving of the environment with a write-back attempt is modelled
by an explicit interference schedule (Interf).

Truthiness: the source tests fields such as doc.replication_id with a
bare if. The only falsy string is the empty string, and the state and
id domains of the data model never contain it, so truthiness is
modelled as Option.isSome.
-/

/-- A document of the replicator database. The fields are the universe
of fields the source reads or writes; `_rev` is a natural number where
0 stands for a fresh document that has no revision yet. -/
structure Doc where
  _id : String
  _rev : Nat := 0
  _deleted : Bool := false
  source : Option String := none
  target : Option String := none
  replication_id : Option String := none
  replication_state : Option String := none
  replication_state_time : Option Nat := none
  replication_state_reason : Option String := none
  replication_stats : Option Nat := none
deriving DecidableEq, Repr

/-- A replication signature: the document stripped of `_id` and `_rev`
(source lines 124-126). A live change-feed document carries no
`_deleted` property, so the signature has no deleted field. -/
structure Sig where
  source : Option String
  target : Option String
  replication_id : Option String
  replication_state : Option String
  replication_state_time : Option Nat
  replication_state_reason : Option String
  replication_stats : Option Nat
deriving DecidableEq, Repr

/-- extend plus delete of `_id` and `_rev`: the signature of a document. -/
def sigOf (d : Doc) : Sig :=
  { source := d.source
    target := d.target
    replication_id := d.replication_id
    replication_state := d.replication_state
    replication_state_time := d.replication_state_time
    replication_state_reason := d.replication_state_reason
    replication_stats := d.replication_stats }

/-- JS object property read. -/
def alGet {κ α : Type} [DecidableEq κ] : List (κ × α) → κ → Option α
  | [], _ => none
  | p :: ps, k => if p.1 = k then some p.2 else alGet ps k

/-- JS object property assignment: overwrite in place, else append. -/
def alSet {κ α : Type} [DecidableEq κ] : List (κ × α) → κ → α → List (κ × α)
  | [], k, v => [(k, v)]
  | p :: ps, k, v => if p.1 = k then (k, v) :: ps else p :: alSet ps k v

/-- JS delete of an object property. -/
def alDel {κ α : Type} [DecidableEq κ] : List (κ × α) → κ → List (κ × α)
  | [], _ => []
  | p :: ps, k => if p.1 = k then alDel ps k else p :: alDel ps k

/-- Source lines 176-187: for-in over the signature map in insertion
order, returning the first replication id whose stored signature
deep-equals the searched signature. -/
def getMatchingSignatureId : List (String × Sig) → Sig → Option String
  | [], _ => none
  | p :: ps, searchedSignature =>
    if p.2 = searchedSignature then some p.1
    else getMatchingSignatureId ps searchedSignature

/-- Observable actions of the controller, recorded in order. -/
inductive Effect where
  | markSelfWrite (docId : String)
  | startJob (task : Nat) (source target : Option String) (options : Doc)
  | cancelJob (task : Nat)
  | putDoc (doc : Doc) (roles : List String)
deriving DecidableEq, Repr

/-- The slices of the global dbData that belong to one controlled
database (what dataFor returns), together with the modelled document
store, the listener registrations of started jobs, the counters that
drive fresh task handles and fresh uuids, the current clock value and
the effect trace. -/
structure St where
  activeReplicationsById : List (String × Nat)
  activeReplicationSignaturesByRepId : List (String × Sig)
  changedByReplicator : List String
  listeners : List (Nat × String)
  store : List (String × Doc)
  nextTask : Nat
  nextUuid : Nat
  now : Nat
  trace : List Effect
deriving DecidableEq, Repr

/-- Models the random-uuid-v4 collaborator: an injective generator of
fresh id strings driven by a counter in the state. -/
def uuid (n : Nat) : String := String.mk (List.replicate (n + 1) 'u')

/-- Line 173: the signature entry deleted is the one keyed by the
replication_id field of the document at hand; deleting at the
undefined key (document without a replication id) is a no-op on the
modelled map. -/
def cleanupSigs (sigs : List (String × Sig)) (doc : Doc) : List (String × Sig) :=
  match doc.replication_id with
  | some rid => alDel sigs rid
  | none => sigs

/-- Source lines 168-174. -/
def cleanupReplicationData (s : St) (doc : Doc) : St :=
  { s with
    activeReplicationsById := alDel s.activeReplicationsById doc._id
    activeReplicationSignaturesByRepId :=
      cleanupSigs s.activeReplicationSignaturesByRepId doc }

/-- Interference of the environment with one write-back attempt,
placed between the self-write mark and the underlying put: quiet
(nothing happens), an external write that supersedes a stored document
with a bumped revision, or a put rejection with the given status. -/
inductive Interf where
  | quiet
  | extWrite (d : Doc)
  | failPut (status : Nat)
deriving DecidableEq, Repr

def applyEnv (env : Interf) (s : St) : St :=
  match env with
  | Interf.extWrite d =>
    let newRev := match alGet s.store d._id with
      | some old => old._rev + 1
      | none => 1
    { s with store := alSet s.store d._id { d with _rev := newRev } }
  | _ => s

/-- The userCtx roles of source lines 222-224. -/
def replicatorRoles : List String := ["_replicator", "_admin"]

/-- indexOf followed by splice(idx, 1): remove the first occurrence.
In every use the removed element was pushed by the same call, so the
indexOf miss case (which would splice the last element) is
unreachable and left unmodelled. -/
def removeFirst : List String → String → List String
  | [], _ => []
  | x :: xs, k => if x = k then xs else x :: removeFirst xs k

/-- Source lines 213-231. Stamps replication_state_time when a
replication state is present, pushes the document id onto
changedByReplicator before the put is issued, then puts the document
under the replicator and admin roles. The modelled put succeeds when
the stored revision matches (bumping it), creates a fresh document at
revision 1, rejects with 409 on a revision mismatch and with 404 on a
stale revision of an absent document; a rejection removes the
self-write mark again (lines 225-230) and surfaces the status. -/
def putAsReplicatorChange (env : Interf) (s : St) (doc0 : Doc) : St × Doc × Option Nat :=
  let doc := if doc0.replication_state.isSome
             then { doc0 with replication_state_time := some s.now } else doc0
  let s1 := { s with
    changedByReplicator := s.changedByReplicator ++ [doc._id]
    trace := s.trace ++ [Effect.markSelfWrite doc._id] }
  let s2 := applyEnv env s1
  let s3 := { s2 with trace := s2.trace ++ [Effect.putDoc doc replicatorRoles] }
  match env with
  | Interf.failPut st =>
    ({ s3 with changedByReplicator := removeFirst s3.changedByReplicator doc._id }, doc, some st)
  | _ =>
    match alGet s3.store doc._id with
    | some stored =>
      if stored._rev = doc._rev then
        ({ s3 with store := alSet s3.store doc._id { doc with _rev := doc._rev + 1 } }, doc, none)
      else
        ({ s3 with changedByReplicator := removeFirst s3.changedByReplicator doc._id }, doc, some 409)
    | none =>
      if doc._rev = 0 then
        ({ s3 with store := alSet s3.store doc._id { doc with _rev := 1 } }, doc, none)
      else
        ({ s3 with changedByReplicator := removeFirst s3.changedByReplicator doc._id }, doc, some 404)

/-- The numeric value of a decimal digit character, if any. -/
def jsDigit? (c : Char) : Option Nat :=
  let n := c.toNat
  if 48 ≤ n ∧ n ≤ 57 then some (n - 48) else none

/-- JS ToNumber on a string, restricted to the shapes that occur here:
a digit string is its value, the empty string is 0, anything else is
NaN, reported as none. -/
def jsToNumber? : List Char → Nat → Option Nat
  | [], acc => some acc
  | c :: cs, acc =>
    match jsDigit? c with
    | some d => jsToNumber? cs (acc * 10 + d)
    | none => none

/-- Source line 101: changedByReplicator.splice(doc id, 1).
Array.prototype.splice coerces its first argument to a number; a
non-numeric id string becomes NaN, which splice treats as index 0, so
the element removed is the one at that numeric index and not the
element equal to the id. -/
def jsSplice (l : List String) (docId : String) : List String :=
  let i := (jsToNumber? docId.data 0).getD 0
  l.take i ++ l.drop (i + 1)

/-- Source lines 94-153: per-document reconciliation. Returns the new
state and the final working copy of the document (the source mutates
the doc argument in place; the write-back stamp is visible on it).
The uuid and PouchDB.replicate collaborators are modelled by the
nextUuid and nextTask counters; starting a replication registers an
always-attached complete and error listener bound to the document id
(lines 146-147), recorded in the listeners map, which reconciliation
never removes. The write-back of line 151 runs against a quiet
environment and its rejection, if any, is dropped, matching the
source, where that promise has no handler. -/
def onChanged (s0 : St) (doc0 : Doc) : St × Doc :=
  let isReplicatorChange := doc0._id ∈ s0.changedByReplicator
  if isReplicatorChange then
    ({ s0 with changedByReplicator := jsSplice s0.changedByReplicator doc0._id }, doc0)
  else if "_design".isPrefixOf doc0._id then (s0, doc0)
  else
    let docCopy := doc0
    let s1 :=
      match alGet s0.activeReplicationsById doc0._id with
      | some oldReplication => { s0 with trace := s0.trace ++ [Effect.cancelJob oldReplication] }
      | none => s0
    let oldSignature : Option Sig :=
      match doc0.replication_id with
      | some rid => alGet s1.activeReplicationSignaturesByRepId rid
      | none => none
    let s2 := cleanupReplicationData s1 doc0
    let step : Doc × Option Sig × St :=
      if doc0._deleted then (doc0, oldSignature, s2)
      else
        let currentSignature := sigOf doc0
        match getMatchingSignatureId s2.activeReplicationSignaturesByRepId currentSignature with
        | some repId => ({ doc0 with replication_id := some repId }, some currentSignature, s2)
        | none =>
          ({ doc0 with
              replication_id := some (uuid s2.nextUuid)
              replication_state := some "triggered" },
           some currentSignature,
           { s2 with nextUuid := s2.nextUuid + 1 })
    let doc := step.1
    let currentSignature := step.2.1
    let s3 := step.2.2
    let s4 :=
      if doc.replication_state = some "triggered" then
        let t := s3.nextTask
        let key := match doc.replication_id with
          | some rid => rid
          | none => "undefined"
        { s3 with
          activeReplicationsById := alSet s3.activeReplicationsById doc._id t
          activeReplicationSignaturesByRepId :=
            match currentSignature with
            | some sig => alSet s3.activeReplicationSignaturesByRepId key sig
            | none => alDel s3.activeReplicationSignaturesByRepId key
          listeners := alSet s3.listeners t doc._id
          nextTask := s3.nextTask + 1
          trace := s3.trace ++ [Effect.startJob t doc.source doc.target doc] }
      else s3
    if doc ≠ docCopy then
      let r := putAsReplicatorChange Interf.quiet s4 doc
      (r.1, r.2.1)
    else (s4, doc)

/-- Source lines 198-211: fetch the document, clear its registry
bookkeeping, mutate it and write it back. The schedule gives the
interference met by the successive attempts; the final attempt (the
schedule exhausted) runs against a quiet environment, matching a store
that has stopped changing. A 409 rejection retries the whole sequence
from scratch (lines 204-205); any other rejection is rethrown to the
surrounding promise chain (line 207), surfaced here in the Option
component. A failing fetch stops the chain with nothing surfaced,
matching the source, where the get rejection has no handler. -/
def updateExistingDoc (docId : String) (func : Doc → Doc) : List Interf → St → St × Option Nat
  | [], s =>
    match alGet s.store docId with
    | none => (s, none)
    | some doc =>
      let s1 := cleanupReplicationData s doc
      let r := putAsReplicatorChange Interf.quiet s1 (func doc)
      (r.1, r.2.2)
  | env :: rest, s =>
    match alGet s.store docId with
    | none => (s, none)
    | some doc =>
      let s1 := cleanupReplicationData s doc
      let r := putAsReplicatorChange env s1 (func doc)
      match r.2.2 with
      | none => (r.1, none)
      | some e =>
        if e = 409 then updateExistingDoc docId func rest r.1
        else (r.1, some e)

/-- The payload of a terminal complete notification. The source
deletes the status and ok fields of the info object before storing it
(lines 190-191); the surviving fields are collapsed into payload. -/
structure ReplicationInfo where
  status : Option String
  ok : Option Bool
  payload : Nat
deriving DecidableEq, Repr

/-- Source lines 189-196. -/
def onReplicationComplete (docId : String) (info : ReplicationInfo)
    (interf : List Interf) (s : St) : St × Option Nat :=
  updateExistingDoc docId
    (fun doc => { doc with
      replication_state := some "completed"
      replication_stats := some info.payload })
    interf s

/-- The payload of a terminal error notification. -/
structure ErrorInfo where
  message : String
deriving DecidableEq, Repr

/-- Source lines 233-238. -/
def onReplicationError (docId : String) (info : ErrorInfo)
    (interf : List Interf) (s : St) : St × Option Nat :=
  updateExistingDoc docId
    (fun doc => { doc with
      replication_state := some "error"
      replication_state_reason := some info.message })
    interf s

/-- Delivery of the terminal complete notification of a task: while
the complete listener attached at line 146 is still registered, it
invokes onReplicationComplete bound to the document id. -/
def deliverComplete (t : Nat) (info : ReplicationInfo)
    (interf : List Interf) (s : St) : St × Option Nat :=
  match alGet s.listeners t with
  | some docId => onReplicationComplete docId info interf s
  | none => (s, none)

/-- The error shape of pouchdb-plugin-error. -/
structure PluginError where
  status : Nat
  name : String
  message : String
deriving DecidableEq, Repr

def alreadyActiveError : PluginError :=
  { status := 500, name := "already_active"
    message := "Replicator already active on this database." }

def alreadyInactiveError : PluginError :=
  { status := 500, name := "already_inactive"
    message := "Replicator already inactive on this database." }

/-- The module-level dbData record (source lines 30-36), plus the
state of the validation collaborator: the set of databases on which
the validation methods are currently installed. Databases and
change-feed handles are identified by naturals. -/
structure DbData where
  dbs : List Nat
  changesByDbIdx : List Nat
  activeReplicationsByDbIdxAndId : List (List (String × Nat))
  activeReplicationSignaturesByDbIdxAndRepId : List (List (String × Sig))
  changedByReplicatorByDbIdx : List (List String)
  validationInstalled : List Nat
deriving DecidableEq, Repr

/-- Source lines 38-92, synchronous part. Installing the validation
methods fails when they are already installed, which rejects the start
with already_active (lines 48-56); otherwise the database is pushed
and its registry slices are initialised (lines 58-61). The change-feed
handle, assigned by the source only after the initial scan, is taken
as a parameter and stored at the same index. -/
def startReplicator (g : DbData) (db : Nat) (feed : Nat) : Except PluginError DbData :=
  if db ∈ g.validationInstalled then
    Except.error alreadyActiveError
  else
    Except.ok
      { dbs := g.dbs ++ [db]
        changesByDbIdx := g.changesByDbIdx ++ [feed]
        activeReplicationsByDbIdxAndId := g.activeReplicationsByDbIdxAndId ++ [[]]
        activeReplicationSignaturesByDbIdxAndRepId :=
          g.activeReplicationSignaturesByDbIdxAndRepId ++ [[]]
        changedByReplicatorByDbIdx := g.changedByReplicatorByDbIdx ++ [[]]
        validationInstalled := g.validationInstalled ++ [db] }

/-- The state of the cancellation phase of stop (source lines
262-292): the cancellables whose doneCancelling listeners are still
attached, the stillCancellingCount counter, whether the stop promise
has resolved, and whether the validation methods are still installed
(they are uninstalled by the continuation that runs at resolution,
lines 288-292). -/
structure StopState where
  pendingListeners : List Nat
  stillCancellingCount : Nat
  resolved : Bool
  validationInstalled : Bool
deriving DecidableEq, Repr

/-- All cancellations are registered synchronously (the actual cancel
calls are deferred with process.nextTick), so the machine starts with
the count equal to the change feed plus every active task. -/
def stopInit (feed : Nat) (jobs : List Nat) : StopState :=
  { pendingListeners := feed :: jobs
    stillCancellingCount := (feed :: jobs).length
    resolved := false
    validationInstalled := true }

/-- One terminal (complete or error) notification of a cancellable:
while its doneCancelling listeners are attached, they detach
themselves (removeAllListeners, line 267) and decrement the counter;
at zero the promise resolves and the continuation uninstalls the
validation methods. A second notification of the same cancellable
finds no listener and does nothing. -/
def stopStep (st : StopState) (c : Nat) : StopState :=
  if c ∈ st.pendingListeners then
    { pendingListeners := st.pendingListeners.erase c
      stillCancellingCount := st.stillCancellingCount - 1
      resolved := if st.stillCancellingCount - 1 = 0 then true else st.resolved
      validationInstalled :=
        if st.stillCancellingCount - 1 = 0 then false else st.validationInstalled }
  else st

def stopRun (st : StopState) (es : List Nat) : StopState := es.foldl stopStep st

/-- Source lines 240-296, synchronous part: reject with
already_inactive when the database has no registry entry (lines
245-253), otherwise splice the database out of every dbData array
immediately (lines 254-260) and enter the cancellation phase over the
change feed and every active task. -/
def stopReplicator (g : DbData) (db : Nat) : Except PluginError (DbData × StopState) :=
  if db ∈ g.dbs then
    let i := g.dbs.indexOf db
    let feed := g.changesByDbIdx.getD i 0
    let jobs := (g.activeReplicationsByDbIdxAndId.getD i []).map (fun p => p.2)
    Except.ok
      ({ dbs := g.dbs.eraseIdx i
         changesByDbIdx := g.changesByDbIdx.eraseIdx i
         activeReplicationsByDbIdxAndId := g.activeReplicationsByDbIdxAndId.eraseIdx i
         activeReplicationSignaturesByDbIdxAndRepId :=
           g.activeReplicationSignaturesByDbIdxAndRepId.eraseIdx i
         changedByReplicatorByDbIdx := g.changedByReplicatorByDbIdx.eraseIdx i
         validationInstalled := g.validationInstalled },
       stopInit feed jobs)
  else Except.error alreadyInactiveError

/-- An empty controller state, used by concrete scenarios. -/
def St.empty : St :=
  { activeReplicationsById := []
    activeReplicationSignaturesByRepId := []
    changedByReplicator := []
    listeners := []
    store := []
    nextTask := 0
    nextUuid := 0
    now := 0
    trace := [] }

/-- The number of replication jobs the controller has started so far. -/
def startJobCount (s : St) : Nat :=
  s.trace.countP fun e =>
    match e with
    | Effect.startJob _ _ _ _ => true
    | _ => false

/-! ### Association-list lemmas -/

theorem alGet_alSet_self {κ α : Type} [DecidableEq κ] (l : List (κ × α)) (k : κ) (v : α) :
    alGet (alSet l k v) k = some v := by
  induction l with
  | nil => simp [alGet, alSet]
  | cons p ps ih =>
    by_cases h : p.1 = k <;> simp [alGet, alSet, h, ih]

theorem alGet_alSet_ne {κ α : Type} [DecidableEq κ] (l : List (κ × α)) (k k' : κ) (v : α)
    (h : k ≠ k') : alGet (alSet l k v) k' = alGet l k' := by
  induction l with
  | nil => simp [alGet, alSet, h, Ne.symm h]
  | cons p ps ih =>
    by_cases hp : p.1 = k
    · simp [alGet, alSet, hp, h, Ne.symm h]
    · by_cases hp' : p.1 = k' <;> simp [alGet, alSet, hp, hp', ih, h, Ne.symm h]

theorem alGet_alDel_self {κ α : Type} [DecidableEq κ] (l : List (κ × α)) (k : κ) :
    alGet (alDel l k) k = none := by
  induction l with
  | nil => simp [alGet, alDel]
  | cons p ps ih =>
    by_cases h : p.1 = k <;> simp [alGet, alDel, h, ih]

theorem alGet_alDel_ne {κ α : Type} [DecidableEq κ] (l : List (κ × α)) (k k' : κ)
    (h : k ≠ k') : alGet (alDel l k) k' = alGet l k' := by
  induction l with
  | nil => simp [alGet, alDel]
  | cons p ps ih =>
    by_cases hp : p.1 = k
    · simp [alGet, alDel, hp, ih, h, Ne.symm h]
    · by_cases hp' : p.1 = k' <;> simp [alGet, alDel, hp, hp', ih, h, Ne.symm h]

theorem alDel_eq_of_alGet_none {κ α : Type} [DecidableEq κ] (l : List (κ × α)) (k : κ)
    (h : alGet l k = none) : alDel l k = l := by
  induction l with
  | nil => simp [alDel]
  | cons p ps ih =>
    by_cases hp : p.1 = k
    · simp [alGet, hp] at h
    · simp [alGet, hp] at h
      simp [alDel, hp, ih h]

theorem removeFirst_append_of_not_mem (l : List String) (k : String) (h : k ∉ l) :
    removeFirst (l ++ [k]) k = l := by
  induction l with
  | nil => simp [removeFirst]
  | cons x xs ih =>
    simp only [List.mem_cons, not_or] at h
    simp [removeFirst, Ne.symm h.1, ih h.2]

/-! ### uuid freshness -/

theorem uuid_length (n : Nat) : (uuid n).length = n + 1 := by
  simp [uuid, String.length]

theorem uuid_ne_of_ne {k n : Nat} (h : k ≠ n) : uuid k ≠ uuid n := by
  intro he
  have := congrArg String.length he
  rw [uuid_length, uuid_length] at this
  omega

/-! ### applyEnv preservation -/

theorem applyEnv_trace (env : Interf) (s : St) : (applyEnv env s).trace = s.trace := by
  cases env <;> rfl

theorem applyEnv_changedByReplicator (env : Interf) (s : St) :
    (applyEnv env s).changedByReplicator = s.changedByReplicator := by
  cases env <;> rfl

/-! ### Components of a write-back attempt -/

theorem putACR_registry (env : Interf) (s : St) (doc : Doc) :
    (putAsReplicatorChange env s doc).1.activeReplicationsById = s.activeReplicationsById ∧
    (putAsReplicatorChange env s doc).1.activeReplicationSignaturesByRepId =
      s.activeReplicationSignaturesByRepId ∧
    (putAsReplicatorChange env s doc).1.listeners = s.listeners ∧
    (putAsReplicatorChange env s doc).1.nextTask = s.nextTask ∧
    (putAsReplicatorChange env s doc).1.nextUuid = s.nextUuid ∧
    (putAsReplicatorChange env s doc).1.now = s.now := by
  simp only [putAsReplicatorChange]
  cases env <;> simp only [applyEnv] <;> (repeat' split) <;> simp

theorem putACR_docOut (env : Interf) (s : St) (doc : Doc) :
    (putAsReplicatorChange env s doc).2.1 =
      (if doc.replication_state.isSome
       then { doc with replication_state_time := some s.now } else doc) := by
  simp only [putAsReplicatorChange]
  cases env <;> simp only [applyEnv] <;> (repeat' split) <;> simp

theorem putACR_trace (env : Interf) (s : St) (doc : Doc) :
    (putAsReplicatorChange env s doc).1.trace =
      s.trace ++ [Effect.markSelfWrite doc._id,
        Effect.putDoc
          (if doc.replication_state.isSome
           then { doc with replication_state_time := some s.now } else doc)
          replicatorRoles] := by
  have hid : (if doc.replication_state.isSome
      then { doc with replication_state_time := some s.now } else doc)._id = doc._id := by
    by_cases h : doc.replication_state.isSome <;> simp [h]
  simp only [putAsReplicatorChange]
  cases env <;>
    simp only [applyEnv] <;> (repeat' split) <;> simp_all

theorem putACR_changed_none (env : Interf) (s : St) (doc : Doc)
    (h : (putAsReplicatorChange env s doc).2.2 = none) :
    (putAsReplicatorChange env s doc).1.changedByReplicator =
      s.changedByReplicator ++ [doc._id] := by
  have hid : (if doc.replication_state.isSome
      then { doc with replication_state_time := some s.now } else doc)._id = doc._id := by
    by_cases hst : doc.replication_state.isSome <;> simp [hst]
  simp only [putAsReplicatorChange] at h ⊢
  cases env <;> simp only [applyEnv] at h ⊢ <;> (repeat' split at h) <;> simp_all

/-- Claim C2 evaluated at a failing input: with two pending self-write
marks, the change notification for the marked id docB does abort
reconciliation, but splice removes the mark of docA (the string docB
coerces to index 0), leaving the mark of docB in place. The claim says
exactly the mark of docB is removed. -/
theorem onChanged_selfwrite_splice_removes_head :
    (onChanged { St.empty with changedByReplicator := ["docA", "docB"] }
        { _id := "docB" }).1 =
      { St.empty with changedByReplicator := ["docB"] } ∧
    (onChanged { St.empty with changedByReplicator := ["docA", "docB"] }
        { _id := "docB" }).2 = { _id := "docB" } := by
  decide

/-- Claim C1 counterexample: the registry holds a signature whose
replication_state is triggered; an incoming document with an equal
signature receives the registered replication id, yet a new
replication job is started (the trigger test of line 140 passes), so
the claim that no new job starts on a signature match is false. -/
theorem onChanged_dedup_triggered_counterexample :
    getMatchingSignatureId
        [("uuid9",
          { source := some "x", target := some "y", replication_id := some "old",
            replication_state := some "triggered", replication_state_time := none,
            replication_state_reason := none, replication_stats := none })]
        (sigOf { _id := "b", _rev := 1, source := some "x", target := some "y",
                 replication_id := some "old", replication_state := some "triggered" }) =
      some "uuid9" ∧
    (onChanged
        { St.empty with
          activeReplicationSignaturesByRepId :=
            [("uuid9",
              { source := some "x", target := some "y", replication_id := some "old",
                replication_state := some "triggered", replication_state_time := none,
                replication_state_reason := none, replication_stats := none })] }
        { _id := "b", _rev := 1, source := some "x", target := some "y",
          replication_id := some "old", replication_state := some "triggered" }).2.replication_id =
      some "uuid9" ∧
    startJobCount
        (onChanged
          { St.empty with
            activeReplicationSignaturesByRepId :=
              [("uuid9",
                { source := some "x", target := some "y", replication_id := some "old",
                  replication_state := some "triggered", replication_state_time := none,
                  replication_state_reason := none, replication_stats := none })] }
          { _id := "b", _rev := 1, source := some "x", target := some "y",
            replication_id := some "old", replication_state := some "triggered" }).1 = 1 := by
  decide

/-- Claim C10: a document update supersedes a running job: the old job
(task 0) is cancelled but its complete listener stays attached, so its
terminal notification still reaches onReplicationComplete for the same
document id, which clears the bookkeeping of the newly registered job
(task 1) and overwrites the new replication state with completed. The
scenario: a fresh document starts task 0; the self-write echo is
absorbed; an edit of target starts task 1 and cancels task 0; then the
cancelled task 0 emits complete. -/
theorem superseded_job_listener_still_fires :
    let dA : Doc := { _id := "a", _rev := 1, source := some "x", target := some "y" }
    let s1 := onChanged { St.empty with store := [("a", dA)], now := 5 } dA
    let s2 := onChanged s1.1 { s1.2 with _rev := 2 }
    let s3 := onChanged s2.1 { s1.2 with _rev := 2, target := some "z" }
    let r := deliverComplete 0 { status := some "c", ok := some false, payload := 42 } [] s3.1
    Effect.cancelJob 0 ∈ s3.1.trace ∧
    alGet s3.1.activeReplicationsById "a" = some 1 ∧
    alGet s3.1.listeners 0 = some "a" ∧
    r.1.activeReplicationsById = [] ∧
    r.1.activeReplicationSignaturesByRepId = [] ∧
    (alGet r.1.store "a").map (fun d => d.replication_state) = some (some "completed") := by
  decide

/-- Claim C9: for every document passed to the write-back routine and
every interference, replication_state_time is stamped to the current
clock exactly when a replication state is present, the document id is
recorded as a pending self-write before the put is issued (the trace
order shows the mark strictly before the put), and the put carries the
replicator and admin roles; when the put succeeds the mark stays in
changedByReplicator. -/
theorem putAsReplicatorChange_marks_before_put (env : Interf) (s : St) (doc : Doc) :
    (putAsReplicatorChange env s doc).2.1 =
      (if doc.replication_state.isSome
       then { doc with replication_state_time := some s.now } else doc) ∧
    (putAsReplicatorChange env s doc).1.trace =
      s.trace ++ [Effect.markSelfWrite doc._id,
        Effect.putDoc
          (if doc.replication_state.isSome
           then { doc with replication_state_time := some s.now } else doc)
          replicatorRoles] ∧
    (doc.replication_state.isSome = true →
      (putAsReplicatorChange env s doc).2.1.replication_state_time = some s.now) ∧
    (doc.replication_state = none →
      (putAsReplicatorChange env s doc).2.1.replication_state_time =
        doc.replication_state_time) ∧
    ((putAsReplicatorChange env s doc).2.2 = none →
      (putAsReplicatorChange env s doc).1.changedByReplicator =
        s.changedByReplicator ++ [doc._id]) := by
  refine ⟨putACR_docOut env s doc, putACR_trace env s doc, ?_, ?_, putACR_changed_none env s doc⟩
  · intro h
    rw [putACR_docOut env s doc, if_pos h]
  · intro h
    rw [putACR_docOut env s doc, if_neg (by simp [h])]

/-- Claim C8 counterexample: a tombstone, as delivered by the storage
layer, carries no replication_id field, so reconciliation cancels the
running job and removes the active-task entry but leaves the signature
entry of that job in the registry. The claim says both entries are
removed. -/
theorem onChanged_deleted_keeps_signature_counterexample :
    Effect.cancelJob 7 ∈
      (onChanged
        { St.empty with
          activeReplicationsById := [("a", 7)],
          activeReplicationSignaturesByRepId :=
            [("r1",
              { source := some "x", target := some "y", replication_id := none,
                replication_state := none, replication_state_time := none,
                replication_state_reason := none, replication_stats := none })],
          listeners := [(7, "a")], nextTask := 8 }
        { _id := "a", _rev := 2, _deleted := true }).1.trace ∧
    alGet
        (onChanged
          { St.empty with
            activeReplicationsById := [("a", 7)],
            activeReplicationSignaturesByRepId :=
              [("r1",
                { source := some "x", target := some "y", replication_id := none,
                  replication_state := none, replication_state_time := none,
                  replication_state_reason := none, replication_stats := none })],
            listeners := [(7, "a")], nextTask := 8 }
          { _id := "a", _rev := 2, _deleted := true }).1.activeReplicationsById "a" = none ∧
    (onChanged
        { St.empty with
          activeReplicationsById := [("a", 7)],
          activeReplicationSignaturesByRepId :=
            [("r1",
              { source := some "x", target := some "y", replication_id := none,
                replication_state := none, replication_state_time := none,
                replication_state_reason := none, replication_stats := none })],
          listeners := [(7, "a")], nextTask := 8 }
        { _id := "a", _rev := 2, _deleted := true }).1.activeReplicationSignaturesByRepId =
      [("r1",
        { source := some "x", target := some "y", replication_id := none,
          replication_state := none, replication_state_time := none,
          replication_state_reason := none, replication_stats := none })] := by
  decide

/-- Claim C8 (amended): a tombstone for a document id with a
registered running job cancels that job and removes its active-task
entry; the signature entry is removed exactly when the tombstone
itself still carries the replication_id of the job (cleanupSigs keys
the deletion by the replication_id field of the delivered document);
no state is written back for the deleted document (the premise that
the tombstone carries no triggered replication state holds for every
tombstone the storage layer delivers). -/
theorem onChanged_deleted_cancels_job (s : St) (doc : Doc) (t : Nat)
    (hnm : doc._id ∉ s.changedByReplicator)
    (hnd : "_design".isPrefixOf doc._id = false)
    (hdel : doc._deleted = true)
    (hstate : doc.replication_state ≠ some "triggered")
    (hact : alGet s.activeReplicationsById doc._id = some t) :
    (onChanged s doc).2 = doc ∧
    (onChanged s doc).1.trace = s.trace ++ [Effect.cancelJob t] ∧
    (onChanged s doc).1.activeReplicationsById = alDel s.activeReplicationsById doc._id ∧
    (onChanged s doc).1.activeReplicationSignaturesByRepId =
      cleanupSigs s.activeReplicationSignaturesByRepId doc ∧
    (onChanged s doc).1.store = s.store ∧
    (onChanged s doc).1.changedByReplicator = s.changedByReplicator ∧
    (onChanged s doc).1.listeners = s.listeners ∧
    (onChanged s doc).1.nextTask = s.nextTask := by
  simp only [onChanged]
  rw [if_neg hnm, if_neg (by simp [hnd])]
  simp [hact, hdel, hstate, cleanupReplicationData]

/-- Claim C1 (amended): during reconciliation of a non-deleted
document in its normal user-created form (no replication state, no
replication id of its own, no running job under its id), a registry
entry with a deep-equal signature makes the document receive that
entry's replication id; no other field is assigned and no new
replication job is started. Without the unset-state premise the claim
fails: a matching document already carrying the triggered state starts
a new job, see the counterexample. -/
theorem onChanged_dedup_reuses_existing_id (s : St) (doc : Doc) (rid : String)
    (hnm : doc._id ∉ s.changedByReplicator)
    (hnd : "_design".isPrefixOf doc._id = false)
    (hdel : doc._deleted = false)
    (hact : alGet s.activeReplicationsById doc._id = none)
    (hid : doc.replication_id = none)
    (hstate : doc.replication_state = none)
    (hmatch : getMatchingSignatureId s.activeReplicationSignaturesByRepId (sigOf doc) =
      some rid) :
    (onChanged s doc).2 = { doc with replication_id := some rid } ∧
    (onChanged s doc).1.trace = s.trace ++
      [Effect.markSelfWrite doc._id,
       Effect.putDoc { doc with replication_id := some rid } replicatorRoles] ∧
    (onChanged s doc).1.nextTask = s.nextTask ∧
    (onChanged s doc).1.activeReplicationsById = s.activeReplicationsById ∧
    (onChanged s doc).1.activeReplicationSignaturesByRepId =
      s.activeReplicationSignaturesByRepId ∧
    (onChanged s doc).1.listeners = s.listeners := by
  simp only [onChanged]
  rw [if_neg hnm, if_neg (by simp [hnd])]
  simp only [hact, hdel, hid, hstate, cleanupReplicationData, cleanupSigs, hmatch,
    alDel_eq_of_alGet_none _ _ hact]
  simp
  have hne : ¬ (Doc.mk doc._id doc._rev false doc.source doc.target (some rid) none
      doc.replication_state_time doc.replication_state_reason doc.replication_stats = doc) := by
    intro h
    have h2 := congrArg Doc.replication_id h
    simp [hid] at h2
  rw [if_neg hne]
  refine ⟨?_, ?_, ?_, ?_, ?_, ?_⟩
  · show (putAsReplicatorChange _ _ _).2.1 = _
    rw [putACR_docOut]
    simp
  · rw [putACR_trace]
    simp
  · rw [(putACR_registry _ _ _).2.2.2.1]
  · rw [(putACR_registry _ _ _).1]
  · rw [(putACR_registry _ _ _).2.1]
  · rw [(putACR_registry _ _ _).2.2.1]

/-- Claim C3: reconciliation of a non-deleted document whose signature
matches no registry entry assigns a freshly generated replication id
(new from the generator and distinct from every registered key, given
that all registered keys came from earlier generator states), sets the
replication state to triggered, starts a replication job with the
source, target and options of the document, registers the job handle
under the document id, and registers the signature under the new
replication id. -/
theorem onChanged_no_match_starts_job (s : St) (doc : Doc)
    (hnm : doc._id ∉ s.changedByReplicator)
    (hnd : "_design".isPrefixOf doc._id = false)
    (hdel : doc._deleted = false)
    (hnomatch : getMatchingSignatureId
      (cleanupSigs s.activeReplicationSignaturesByRepId doc) (sigOf doc) = none)
    (hfresh : ∀ p ∈ s.activeReplicationSignaturesByRepId, ∃ k, k < s.nextUuid ∧ p.1 = uuid k) :
    (onChanged s doc).2.replication_id = some (uuid s.nextUuid) ∧
    (onChanged s doc).2.replication_state = some "triggered" ∧
    alGet (onChanged s doc).1.activeReplicationsById doc._id = some s.nextTask ∧
    alGet (onChanged s doc).1.activeReplicationSignaturesByRepId (uuid s.nextUuid) =
      some (sigOf doc) ∧
    Effect.startJob s.nextTask doc.source doc.target
        { doc with replication_id := some (uuid s.nextUuid),
                   replication_state := some "triggered" } ∈ (onChanged s doc).1.trace ∧
    (onChanged s doc).1.nextTask = s.nextTask + 1 ∧
    (onChanged s doc).1.nextUuid = s.nextUuid + 1 ∧
    (∀ p ∈ s.activeReplicationSignaturesByRepId, p.1 ≠ uuid s.nextUuid) := by
  have hfr : ∀ p ∈ s.activeReplicationSignaturesByRepId, p.1 ≠ uuid s.nextUuid := by
    intro p hp
    obtain ⟨k, hk, hpk⟩ := hfresh p hp
    rw [hpk]
    exact uuid_ne_of_ne (Nat.ne_of_lt hk)
  simp only [onChanged]
  rw [if_neg hnm, if_neg (by simp [hnd])]
  cases hact : alGet s.activeReplicationsById doc._id
  all_goals
    simp only [hact, hdel, cleanupReplicationData, hnomatch]
    simp only [Bool.false_eq_true, if_false]
    split
  all_goals
    refine ⟨?_, ?_, ?_, ?_, ?_, ?_, ?_, hfr⟩
  all_goals
    first
      | (show (putAsReplicatorChange _ _ _).2.1.replication_id = _
         rw [putACR_docOut]
         simp [apply_ite Doc.replication_id])
      | (show (putAsReplicatorChange _ _ _).2.1.replication_state = _
         rw [putACR_docOut]
         simp [apply_ite Doc.replication_state])
      | (rw [(putACR_registry _ _ _).1]
         simp [alGet_alSet_self])
      | (rw [(putACR_registry _ _ _).2.1]
         simp [alGet_alSet_self])
      | (rw [(putACR_registry _ _ _).2.2.2.1]
         simp)
      | (rw [(putACR_registry _ _ _).2.2.2.2.1]
         simp)
      | (rw [putACR_trace]
         simp)
      | simp [alGet_alSet_self]

/-- Claim C7: a terminal error notification carrying a message makes
the controller re-fetch the document by id, clear its registry
bookkeeping (the active task entry and the signature entry keyed by
the replication id the fetched document carries), set the replication
state to error with the message as reason, and write the document back
(stamped and at the next revision); no error is surfaced. -/
theorem onReplicationError_writes_error_state (s : St) (docId m : String) (d : Doc)
    (hget : alGet s.store docId = some d) (hid : d._id = docId) :
    (onReplicationError docId { message := m } [] s).2 = none ∧
    alGet (onReplicationError docId { message := m } [] s).1.store docId =
      some { d with replication_state := some "error",
                    replication_state_reason := some m,
                    replication_state_time := some s.now,
                    _rev := d._rev + 1 } ∧
    alGet (onReplicationError docId { message := m } [] s).1.activeReplicationsById docId =
      none ∧
    (∀ rid, d.replication_id = some rid →
      alGet (onReplicationError docId
        { message := m } [] s).1.activeReplicationSignaturesByRepId rid = none) := by
  simp only [onReplicationError, updateExistingDoc, hget]
  simp only [putAsReplicatorChange, applyEnv, cleanupReplicationData]
  simp [hid, hget, alGet_alSet_self, alGet_alDel_self]
  intro rid hrid
  simp [cleanupSigs, hrid, alGet_alDel_self]

/-! ### Single write-back attempts, by environment -/

theorem stamp_id (s : St) (doc : Doc) :
    ((if doc.replication_state.isSome
      then { doc with replication_state_time := some s.now } else doc) : Doc)._id =
      doc._id := by
  by_cases h : doc.replication_state.isSome <;> simp [h]

theorem stamp_rev (s : St) (doc : Doc) :
    ((if doc.replication_state.isSome
      then { doc with replication_state_time := some s.now } else doc) : Doc)._rev =
      doc._rev := by
  by_cases h : doc.replication_state.isSome <;> simp [h]

theorem putACR_quiet_ok (s : St) (doc d : Doc)
    (hget : alGet s.store doc._id = some d) (hrev : d._rev = doc._rev) :
    (putAsReplicatorChange Interf.quiet s doc).2.2 = none ∧
    (putAsReplicatorChange Interf.quiet s doc).1.changedByReplicator =
      s.changedByReplicator ++ [doc._id] := by
  simp only [putAsReplicatorChange, applyEnv]
  simp [stamp_id, stamp_rev, hget, hrev]

theorem putACR_extWrite_conflict (s : St) (doc d dd : Doc)
    (hget : alGet s.store doc._id = some d)
    (hrev : d._rev = doc._rev)
    (hdd : dd._id = doc._id) :
    (putAsReplicatorChange (Interf.extWrite dd) s doc).2.2 = some 409 ∧
    (putAsReplicatorChange (Interf.extWrite dd) s doc).1.changedByReplicator =
      removeFirst (s.changedByReplicator ++ [doc._id]) doc._id ∧
    (putAsReplicatorChange (Interf.extWrite dd) s doc).1.store =
      alSet s.store doc._id { dd with _rev := d._rev + 1 } := by
  simp only [putAsReplicatorChange, applyEnv]
  simp [stamp_id, stamp_rev, hdd, hget, alGet_alSet_self, hrev]

theorem putACR_extWrite_ok (s : St) (doc d dd : Doc)
    (hget : alGet s.store doc._id = some d)
    (hrev : d._rev = doc._rev)
    (hdd : dd._id ≠ doc._id) :
    (putAsReplicatorChange (Interf.extWrite dd) s doc).2.2 = none ∧
    (putAsReplicatorChange (Interf.extWrite dd) s doc).1.changedByReplicator =
      s.changedByReplicator ++ [doc._id] := by
  simp only [putAsReplicatorChange, applyEnv]
  simp [stamp_id, stamp_rev, alGet_alSet_ne _ _ _ _ hdd, hget, hrev]

theorem putACR_failPut (s : St) (doc : Doc) (st : Nat) :
    (putAsReplicatorChange (Interf.failPut st) s doc).2.2 = some st ∧
    (putAsReplicatorChange (Interf.failPut st) s doc).1.changedByReplicator =
      removeFirst (s.changedByReplicator ++ [doc._id]) doc._id ∧
    (putAsReplicatorChange (Interf.failPut st) s doc).1.store = s.store := by
  simp only [putAsReplicatorChange, applyEnv]
  simp [stamp_id]

/-- Claim C6: in the write-back path of the completion and error
handlers, over any interference schedule, a revision conflict (status
409, whether a genuine revision mismatch or a 409 rejection) is never
surfaced: the self-write mark is rolled back and the whole fetch,
mutate, write-back sequence retries against the latest stored
revision; an error is surfaced exactly when the storage rejects the
put with a status other than 409, and then the self-write mark has
been rolled back too; on success the mark is in place for the echo.
The mutation hypotheses (id and revision preserved) hold for both real
handlers, and the store hypothesis says every stored document carries
its own key as id. -/
theorem updateExistingDoc_conflict_retry (interf : List Interf) (s : St) (docId : String)
    (func : Doc → Doc)
    (hfid : ∀ d, (func d)._id = d._id)
    (hfrev : ∀ d, (func d)._rev = d._rev)
    (hwf : ∀ k d, alGet s.store k = some d → d._id = k)
    (hstore : (alGet s.store docId).isSome = true)
    (hm : docId ∉ s.changedByReplicator) :
    (updateExistingDoc docId func interf s).2 ≠ some 409 ∧
    (∀ e, (updateExistingDoc docId func interf s).2 = some e →
      e ≠ 409 ∧ Interf.failPut e ∈ interf ∧
      docId ∉ (updateExistingDoc docId func interf s).1.changedByReplicator) ∧
    ((updateExistingDoc docId func interf s).2 = none →
      (updateExistingDoc docId func interf s).1.changedByReplicator =
        s.changedByReplicator ++ [docId]) := by
  induction interf generalizing s with
  | nil =>
    obtain ⟨d, hget⟩ := Option.isSome_iff_exists.mp hstore
    have hd : d._id = docId := hwf docId d hget
    have hfd : (func d)._id = docId := by rw [hfid, hd]
    have hq := putACR_quiet_ok (cleanupReplicationData s d) (func d) d
      (by simpa [cleanupReplicationData, hfd] using hget) ((hfrev d).symm)
    simp only [updateExistingDoc, hget]
    refine ⟨?_, ?_, ?_⟩
    · simp [hq.1]
    · intro e he
      simp only [hq.1] at he
      cases he
    · intro _
      rw [hq.2]
      simp [cleanupReplicationData, hfd]
  | cons env rest ih =>
    obtain ⟨d, hget⟩ := Option.isSome_iff_exists.mp hstore
    have hd : d._id = docId := hwf docId d hget
    have hfd : (func d)._id = docId := by rw [hfid, hd]
    simp only [updateExistingDoc, hget]
    cases env with
    | quiet =>
      have hq := putACR_quiet_ok (cleanupReplicationData s d) (func d) d
        (by simpa [cleanupReplicationData, hfd] using hget) ((hfrev d).symm)
      simp only [hq.1]
      refine ⟨by simp, ?_, ?_⟩
      · intro e he
        cases he
      · intro _
        rw [hq.2]
        simp [cleanupReplicationData, hfd]
    | extWrite dd =>
      by_cases hdd : dd._id = docId
      · have hc := putACR_extWrite_conflict (cleanupReplicationData s d) (func d) d dd
          (by simpa [cleanupReplicationData, hfd] using hget) ((hfrev d).symm)
          (by rw [hfd]; exact hdd)
        simp only [hc.1]
        rw [if_pos (by trivial)]
        have hch : (putAsReplicatorChange (Interf.extWrite dd)
            (cleanupReplicationData s d) (func d)).1.changedByReplicator =
            s.changedByReplicator := by
          rw [hc.2.1]
          simp only [cleanupReplicationData]
          simp [hfd, removeFirst_append_of_not_mem _ _ hm]
        have hst1 : (alGet (putAsReplicatorChange (Interf.extWrite dd)
            (cleanupReplicationData s d) (func d)).1.store docId).isSome = true := by
          rw [hc.2.2]
          simp [cleanupReplicationData, hfd, alGet_alSet_self]
        have hwf1 : ∀ k d2, alGet (putAsReplicatorChange (Interf.extWrite dd)
            (cleanupReplicationData s d) (func d)).1.store k = some d2 → d2._id = k := by
          intro k d2 h2
          rw [hc.2.2] at h2
          by_cases hk : (func d)._id = k
          · rw [hk, alGet_alSet_self] at h2
            cases h2
            rw [← hk, hfd]
            exact hdd
          · rw [alGet_alSet_ne _ _ _ _ hk] at h2
            exact hwf k d2 (by simpa [cleanupReplicationData] using h2)
        obtain ⟨ih1, ih2, ih3⟩ := ih _ hwf1 hst1 (by rw [hch]; exact hm)
        refine ⟨ih1, ?_, ?_⟩
        · intro e he
          obtain ⟨a, b, c⟩ := ih2 e he
          exact ⟨a, List.mem_cons_of_mem _ b, c⟩
        · intro hn
          rw [ih3 hn, hch]
      · have hq := putACR_extWrite_ok (cleanupReplicationData s d) (func d) d dd
          (by simpa [cleanupReplicationData, hfd] using hget) ((hfrev d).symm)
          (by rw [hfd]; exact hdd)
        simp only [hq.1]
        refine ⟨by simp, ?_, ?_⟩
        · intro e he
          cases he
        · intro _
          rw [hq.2]
          simp [cleanupReplicationData, hfd]
    | failPut st =>
      have hf := putACR_failPut (cleanupReplicationData s d) (func d) st
      have hch : (putAsReplicatorChange (Interf.failPut st)
          (cleanupReplicationData s d) (func d)).1.changedByReplicator =
          s.changedByReplicator := by
        rw [hf.2.1]
        simp only [cleanupReplicationData]
        simp [hfd, removeFirst_append_of_not_mem _ _ hm]
      by_cases hst : st = 409
      · subst hst
        simp only [hf.1]
        rw [if_pos (by trivial)]
        have hst1 : (alGet (putAsReplicatorChange (Interf.failPut 409)
            (cleanupReplicationData s d) (func d)).1.store docId).isSome = true := by
          rw [hf.2.2]
          simpa [cleanupReplicationData] using hstore
        have hwf1 : ∀ k d2, alGet (putAsReplicatorChange (Interf.failPut 409)
            (cleanupReplicationData s d) (func d)).1.store k = some d2 → d2._id = k := by
          intro k d2 h2
          rw [hf.2.2] at h2
          exact hwf k d2 (by simpa [cleanupReplicationData] using h2)
        obtain ⟨ih1, ih2, ih3⟩ := ih _ hwf1 hst1 (by rw [hch]; exact hm)
        refine ⟨ih1, ?_, ?_⟩
        · intro e he
          obtain ⟨a, b, c⟩ := ih2 e he
          exact ⟨a, List.mem_cons_of_mem _ b, c⟩
        · intro hn
          rw [ih3 hn, hch]
      · simp only [hf.1, if_neg hst]
        refine ⟨?_, ?_, ?_⟩
        · simp [hst]
        · intro e he
          have he2 : st = e := by simpa using he
          subst he2
          refine ⟨hst, List.mem_cons_self _ _, ?_⟩
          rw [hch]
          exact hm
        · intro hn
          cases hn

/-- Claim C4: starting on a database whose controller is active (the
validation methods are installed, which is what the source checks, and
what a completed start leaves behind) fails with already_active;
stopping a database with no registry entry fails with
already_inactive; and a successful start makes a second start fail. -/
theorem startReplicator_stopReplicator_errors (g : DbData) (db : Nat) :
    (db ∈ g.validationInstalled →
      ∀ feed, startReplicator g db feed = Except.error alreadyActiveError) ∧
    (∀ g2 feed feed2, startReplicator g db feed = Except.ok g2 →
      startReplicator g2 db feed2 = Except.error alreadyActiveError) ∧
    (db ∉ g.dbs → stopReplicator g db = Except.error alreadyInactiveError) := by
  refine ⟨?_, ?_, ?_⟩
  · intro h feed
    simp [startReplicator, h]
  · intro g2 feed feed2 hok
    by_cases h : db ∈ g.validationInstalled
    · simp [startReplicator, h] at hok
    · simp only [startReplicator, h, if_neg, if_false] at hok
      simp at hok
      rw [startReplicator, if_pos]
      rw [← hok]
      simp
  · intro h
    simp [stopReplicator, h]

/-- A stop machine whose doneCancelling listeners are all gone never
changes again. -/
theorem stopRun_nil_pending (es : List Nat) (st : StopState)
    (h : st.pendingListeners = []) : stopRun st es = st := by
  induction es generalizing st with
  | nil => rfl
  | cons e es ih =>
    have hstep : stopStep st e = st := by simp [stopStep, h]
    show stopRun (stopStep st e) es = st
    rw [hstep]
    exact ih st h

/-- Core behaviour of the cancellation phase: starting from a machine
whose counter matches its pending listeners (distinct, at least one),
the promise resolves exactly when every pending cancellable has
emitted a terminal notification, and the validation methods are
uninstalled exactly at resolution. -/
theorem stopRun_spec (es : List Nat) (st : StopState)
    (hc : st.stillCancellingCount = st.pendingListeners.length)
    (hn : st.pendingListeners.Nodup)
    (hr : st.resolved = false)
    (hv : st.validationInstalled = true)
    (hne : st.pendingListeners ≠ []) :
    ((stopRun st es).resolved = true ↔ ∀ c ∈ st.pendingListeners, c ∈ es) ∧
    ((stopRun st es).validationInstalled = false ↔ (stopRun st es).resolved = true) := by
  induction es generalizing st with
  | nil =>
    constructor
    · rw [show stopRun st [] = st from rfl, hr]
      refine iff_of_false (by simp) ?_
      intro hall
      apply hne
      cases hpl : st.pendingListeners with
      | nil => rfl
      | cons a l =>
        have := hall a (by rw [hpl]; exact List.mem_cons_self a l)
        simp at this
    · rw [show stopRun st [] = st from rfl, hr, hv]
      simp
  | cons e es ih =>
    show ((stopRun (stopStep st e) es).resolved = true ↔
        ∀ c ∈ st.pendingListeners, c ∈ e :: es) ∧
      ((stopRun (stopStep st e) es).validationInstalled = false ↔
        (stopRun (stopStep st e) es).resolved = true)
    by_cases he : e ∈ st.pendingListeners
    · by_cases hone : st.pendingListeners.length = 1
      · have hpl : st.pendingListeners = [e] := by
          cases hl : st.pendingListeners with
          | nil => rw [hl] at he; cases he
          | cons a l =>
            rw [hl] at hone
            simp at hone
            rw [hl, hone] at he
            simp at he
            rw [hone, he]
        have hstep : stopStep st e =
            { pendingListeners := [], stillCancellingCount := 0,
              resolved := true, validationInstalled := false } := by
          rw [stopStep, if_pos he, hc, hone, hpl]
          simp
        rw [hstep, stopRun_nil_pending es _ rfl]
        constructor
        · simp [hpl]
        · simp
      · have hpos : 0 < st.pendingListeners.length := List.length_pos.mpr hne
        have hlen : 2 ≤ st.pendingListeners.length := by omega
        have hcount : ¬(st.stillCancellingCount - 1 = 0) := by
          rw [hc]
          omega
        have hstep : stopStep st e =
            { pendingListeners := st.pendingListeners.erase e,
              stillCancellingCount := st.stillCancellingCount - 1,
              resolved := st.resolved, validationInstalled := st.validationInstalled } := by
          rw [stopStep, if_pos he]
          simp [hcount]
        have hc2 : st.stillCancellingCount - 1 = (st.pendingListeners.erase e).length := by
          rw [hc, List.length_erase_of_mem he]
        have hne2 : st.pendingListeners.erase e ≠ [] := by
          have : 0 < (st.pendingListeners.erase e).length := by
            rw [List.length_erase_of_mem he]
            omega
          exact List.length_pos.mp this
        have IH := ih
          { pendingListeners := st.pendingListeners.erase e,
            stillCancellingCount := st.stillCancellingCount - 1,
            resolved := st.resolved, validationInstalled := st.validationInstalled }
          hc2 (hn.erase e) hr hv hne2
        rw [hstep]
        have hiff : (∀ c ∈ st.pendingListeners.erase e, c ∈ es) ↔
            (∀ c ∈ st.pendingListeners, c ∈ e :: es) := by
          constructor
          · intro hall c hcp
            by_cases hce : c = e
            · rw [hce]
              exact List.mem_cons_self e es
            · exact List.mem_cons_of_mem _
                (hall c ((List.Nodup.mem_erase_iff hn).mpr ⟨hce, hcp⟩))
          · intro hall c hce
            obtain ⟨hcne, hcp⟩ := (List.Nodup.mem_erase_iff hn).mp hce
            rcases List.mem_cons.mp (hall c hcp) with h1 | h2
            · exact absurd h1 hcne
            · exact h2
        exact ⟨IH.1.trans hiff, IH.2⟩
    · have hstep : stopStep st e = st := by simp [stopStep, he]
      rw [hstep]
      have IH := ih st hc hn hr hv hne
      have hiff : (∀ c ∈ st.pendingListeners, c ∈ es) ↔
          (∀ c ∈ st.pendingListeners, c ∈ e :: es) := by
        constructor
        · intro hall c hcp
          exact List.mem_cons_of_mem _ (hall c hcp)
        · intro hall c hcp
          rcases List.mem_cons.mp (hall c hcp) with h1 | h2
          · rw [h1] at hcp
            exact absurd hcp he
          · exact h2
      exact ⟨IH.1.trans hiff, IH.2⟩

/-- Claim C5: a stop call on an active database hands every running
Task Handle and the change-feed subscription to the cancellation
machine; over every sequence of terminal notifications, the stop
promise is resolved exactly when each of those cancellables has
notified, and the validation rules are relaxed exactly at resolution
(so never before the last acknowledgement). -/
theorem stopReplicator_waits_for_terminals (g : DbData) (db : Nat) (g2 : DbData)
    (m : StopState) (h : stopReplicator g db = Except.ok (g2, m))
    (hnd : m.pendingListeners.Nodup) :
    ∀ es : List Nat,
      ((stopRun m es).resolved = true ↔ ∀ c ∈ m.pendingListeners, c ∈ es) ∧
      ((stopRun m es).validationInstalled = false ↔ (stopRun m es).resolved = true) := by
  intro es
  by_cases hdb : db ∈ g.dbs
  · rw [stopReplicator, if_pos hdb] at h
    simp only [Except.ok.injEq, Prod.mk.injEq] at h
    have hm : m = stopInit (g.changesByDbIdx.getD (g.dbs.indexOf db) 0)
        (((g.activeReplicationsByDbIdxAndId).getD (g.dbs.indexOf db) []).map
          (fun p => p.2)) := h.2.symm
    subst hm
    exact stopRun_spec es _ rfl (by exact hnd) rfl rfl (by simp [stopInit])
  · rw [stopReplicator, if_neg hdb] at h
    cases h

/-! ### Concrete instances used by the witnesses -/

def wDoc1 : Doc := { _id := "b", _rev := 1, source := some "x", target := some "y" }

def wSt1 : St := { St.empty with activeReplicationSignaturesByRepId := [("r0", sigOf wDoc1)] }

def wSt6 : St := { St.empty with store := [("d", { _id := "d" })] }

def wFunc : Doc → Doc := fun d => { d with replication_state := some "error" }

def wExt : Doc := { _id := "d", target := some "q" }

def wSt7 : St := { St.empty with store := [("rep1", { _id := "rep1" })], now := 3 }

def wSt8 : St := { St.empty with
  activeReplicationsById := [("a", 7)],
  activeReplicationSignaturesByRepId := [("r1", sigOf wDoc1)],
  listeners := [(7, "a")], nextTask := 8 }

def wDocT : Doc := { _id := "a", _rev := 2, _deleted := true, replication_id := some "r1" }

def gEx4 : DbData :=
  { dbs := [], changesByDbIdx := [], activeReplicationsByDbIdxAndId := [],
    activeReplicationSignaturesByDbIdxAndRepId := [], changedByReplicatorByDbIdx := [],
    validationInstalled := [7] }

def gEx5 : DbData :=
  { dbs := [1], changesByDbIdx := [10],
    activeReplicationsByDbIdxAndId := [[("a", 20), ("b", 30)]],
    activeReplicationSignaturesByDbIdxAndRepId := [[]],
    changedByReplicatorByDbIdx := [[]], validationInstalled := [1] }

/-- Well-formedness of a singleton store. -/
theorem singleton_storeWF (key : String) (d0 : Doc) (hid : d0._id = key) :
    ∀ k d, alGet [(key, d0)] k = some d → d._id = k := by
  intro k d h
  by_cases hk : key = k
  · subst hk
    simp [alGet] at h
    rw [← h]
    exact hid
  · simp [alGet, hk] at h

/-- Claim C1 witness: the amended dedup theorem at a concrete state. -/
theorem onChanged_dedup_reuses_existing_id_witness :
    (onChanged wSt1 wDoc1).2 = { wDoc1 with replication_id := some "r0" } ∧
    (onChanged wSt1 wDoc1).1.nextTask = 0 := by
  have T := onChanged_dedup_reuses_existing_id wSt1 wDoc1 "r0" (by decide) (by decide)
    (by decide) (by decide) (by decide) (by decide) (by decide)
  exact ⟨T.1, T.2.2.1⟩

/-- Claim C3 witness: the fresh-trigger theorem at a concrete state. -/
theorem onChanged_no_match_starts_job_witness :
    (onChanged St.empty wDoc1).2.replication_id = some (uuid 0) ∧
    (onChanged St.empty wDoc1).2.replication_state = some "triggered" ∧
    alGet (onChanged St.empty wDoc1).1.activeReplicationsById "b" = some 0 := by
  have T := onChanged_no_match_starts_job St.empty wDoc1 (by decide) (by decide)
    (by decide) (by decide) (by simp [St.empty])
  exact ⟨T.1, T.2.1, T.2.2.1⟩

/-- Claim C4 witness: the two error paths at concrete states. -/
theorem startReplicator_stopReplicator_errors_witness :
    startReplicator gEx4 7 0 = Except.error alreadyActiveError ∧
    stopReplicator gEx4 7 = Except.error alreadyInactiveError := by
  exact ⟨(startReplicator_stopReplicator_errors gEx4 7).1 (by decide) 0,
    (startReplicator_stopReplicator_errors gEx4 7).2.2 (by decide)⟩

/-- Claim C5 witness: with the change feed (10) and two jobs (20, 30),
the stop promise is unresolved after only two terminal notifications
and resolves, with validation relaxed, after all three. -/
theorem stopReplicator_waits_for_terminals_witness :
    (stopRun (stopInit 10 [20, 30]) [20, 10]).resolved = false ∧
    (stopRun (stopInit 10 [20, 30]) [20, 10, 30]).resolved = true ∧
    (stopRun (stopInit 10 [20, 30]) [20, 10, 30]).validationInstalled = false := by
  have T := stopReplicator_waits_for_terminals gEx5 1
    { dbs := [], changesByDbIdx := [], activeReplicationsByDbIdxAndId := [],
      activeReplicationSignaturesByDbIdxAndRepId := [], changedByReplicatorByDbIdx := [],
      validationInstalled := [1] }
    (stopInit 10 [20, 30]) rfl (by decide)
  refine ⟨?_, ?_, ?_⟩
  · by_contra hcon
    have hres : (stopRun (stopInit 10 [20, 30]) [20, 10]).resolved = true := by
      simpa using hcon
    exact absurd (((T [20, 10]).1.mp hres) 30 (by decide)) (by decide)
  · exact (T [20, 10, 30]).1.mpr (by decide)
  · exact (T [20, 10, 30]).2.mpr ((T [20, 10, 30]).1.mpr (by decide))

/-- Claim C6 witness: one interfering external write forces a 409; the
retry runs against the bumped revision and succeeds; nothing is
surfaced and the self-write mark is in place. -/
theorem updateExistingDoc_conflict_retry_witness :
    (updateExistingDoc "d" wFunc [Interf.extWrite wExt] wSt6).2 = none ∧
    (updateExistingDoc "d" wFunc [Interf.extWrite wExt] wSt6).1.changedByReplicator =
      ["d"] := by
  have T := updateExistingDoc_conflict_retry [Interf.extWrite wExt] wSt6 "d" wFunc
    (fun _ => rfl) (fun _ => rfl)
    (by
      intro k d h
      exact singleton_storeWF "d" { _id := "d" } rfl k d (by simpa [wSt6, St.empty] using h))
    (by decide) (by decide)
  have h1 : (updateExistingDoc "d" wFunc [Interf.extWrite wExt] wSt6).2 = none := by decide
  refine ⟨h1, ?_⟩
  have h2 := T.2.2 h1
  simpa [wSt6, St.empty] using h2

/-- Claim C7 witness: the scenario of the spec, message connection
refused on document rep1. -/
theorem onReplicationError_writes_error_state_witness :
    (onReplicationError "rep1" { message := "connection refused" } [] wSt7).2 = none ∧
    alGet (onReplicationError "rep1"
        { message := "connection refused" } [] wSt7).1.store "rep1" =
      some { _id := "rep1", _rev := 1, replication_state := some "error",
             replication_state_time := some 3,
             replication_state_reason := some "connection refused" } := by
  have T := onReplicationError_writes_error_state wSt7 "rep1" "connection refused"
    { _id := "rep1" } (by decide) (by decide)
  exact ⟨T.1, T.2.1⟩

/-- Claim C8 witness: a tombstone that still carries the replication id
of its job removes both registry entries, and nothing is written. -/
theorem onChanged_deleted_cancels_job_witness :
    (onChanged wSt8 wDocT).1.trace = [Effect.cancelJob 7] ∧
    (onChanged wSt8 wDocT).1.activeReplicationSignaturesByRepId = [] ∧
    (onChanged wSt8 wDocT).1.store = [] := by
  have T := onChanged_deleted_cancels_job wSt8 wDocT 7 (by decide) (by decide) (by decide)
    (by decide) (by decide)
  refine ⟨?_, ?_, ?_⟩
  · rw [T.2.1]
    decide
  · rw [T.2.2.2.1]
    decide
  · rw [T.2.2.2.2.1]
    decide

/-- Claim C9 witness: the write-back routine at a concrete document
with no replication state: no stamp, mark recorded before the put. -/
theorem putAsReplicatorChange_marks_before_put_witness :
    (putAsReplicatorChange Interf.quiet St.empty wDoc1).1.trace =
      [Effect.markSelfWrite "b", Effect.putDoc wDoc1 replicatorRoles] ∧
    (putAsReplicatorChange Interf.quiet St.empty wDoc1).2.1 = wDoc1 := by
  have T := putAsReplicatorChange_marks_before_put Interf.quiet St.empty wDoc1
  refine ⟨?_, ?_⟩
  · rw [T.2.1]
    decide
  · rw [T.1]
    decide
